import Mathlib

/-!
Shallow embedding of `src/lib/customer.js` from the node-fastbill repository:
the `Customer` resource client (operations `get`, `create`, `update`, `remove`)
and its interaction with the external Transport collaborator.

JavaScript runtime values are modelled by `JSValue`; the synchronous phase of
each method (argument normalisation, type validation, construction of the
request descriptor handed to `$request`) is one Lean function per method, and
the `onResult` callback each method installs is a second function mapping the
Transport callback arguments to a promise settlement.
-/

namespace Fastbill

/-- A JavaScript runtime value, restricted to the shapes this client touches.
`vNaN` is kept apart from `vNum` because NaN is falsy while its `typeof` kind
is still `number`. -/
inductive JSValue : Type where
  | vNull : JSValue
  | vUndefined : JSValue
  | vBool : Bool → JSValue
  | vNum : Int → JSValue
  | vNaN : JSValue
  | vStr : String → JSValue
  | vArr : List JSValue → JSValue
  | vObj : List (String × JSValue) → JSValue

/-- The runtime kind of a value, as the type-checking helper classifies it:
plain mappings are kind `object`, and both ordinary numbers and NaN are
kind `number`. -/
def jsKind : JSValue → String
  | .vNull => "null"
  | .vUndefined => "undefined"
  | .vBool _ => "boolean"
  | .vNum _ => "number"
  | .vNaN => "number"
  | .vStr _ => "string"
  | .vArr _ => "array"
  | .vObj _ => "object"

/-- JavaScript falsiness: `null`, `undefined`, `NaN`, `false`, `0` and the
empty string are falsy; every object, array and other primitive is truthy. -/
def isFalsy : JSValue → Bool
  | .vNull => true
  | .vUndefined => true
  | .vNaN => true
  | .vBool b => !b
  | .vNum n => n == 0
  | .vStr s => s == ""
  | .vArr _ => false
  | .vObj _ => false

/-- JavaScript truthiness, the condition tested by `if (err)`. -/
def truthy (v : JSValue) : Bool := !(isFalsy v)

/-- Property lookup on an association list of object fields; a missing key
reads as `undefined`, as in JavaScript. -/
def lookupField : List (String × JSValue) → String → JSValue
  | [], _ => .vUndefined
  | (k, v) :: rest, key => if k == key then v else lookupField rest key

/-- Property access `v[key]`: field lookup on plain objects, `undefined`
on every other value reachable in this client's code paths. -/
def getField : JSValue → String → JSValue
  | .vObj fs, key => lookupField fs key
  | _, _ => .vUndefined

/-- Property assignment on an association list: an existing key is
overwritten in place, a new key is appended, matching JavaScript object
field update and insertion order. -/
def setAssoc : List (String × JSValue) → String → JSValue → List (String × JSValue)
  | [], key, x => [(key, x)]
  | (k, v) :: rest, key, x =>
      if k == key then (key, x) :: rest else (k, v) :: setAssoc rest key x

/-- Property assignment `v[key] = x` on a plain object; other values are
left unchanged (the client only assigns after validating the target is an
object). -/
def setField : JSValue → String → JSValue → JSValue
  | .vObj fs, key, x => .vObj (setAssoc fs key x)
  | v, _, _ => v

/-- The error vocabulary of `lib/utils/errors` as far as this client uses
it: synchronous type-validation failures and wrapped transport failures. -/
inductive FastbillError : Type where
  | typeError (message : String)
  | invalidRequestError (message : String) (detail : JSValue)

/-- Modelled from the spec: the type-checking helper
`typeOf(value).mustBe(expectedKind)` of `lib/utils/type_handler` is not among
the sources; per the spec it fails by raising a TypeError-kind error exactly
when the value's runtime kind does not match `expectedKind` (kinds used here:
`object` for plain mappings, `number`). -/
def mustBe (v : JSValue) (kind : String) : Except FastbillError Unit :=
  if jsKind v == kind then .ok ()
  else .error (.typeError ("Invalid type, expected " ++ kind))

/-- The request descriptor handed to `$request`: `get` sends the three
pass-through query fields, the other operations send `data`. -/
structure RequestDescriptor : Type where
  service : String
  data : Option JSValue := none
  filter : Option JSValue := none
  limit : Option JSValue := none
  offset : Option JSValue := none

/-- The pair of arguments with which Transport invokes the completion
callback. -/
structure CallbackArgs : Type where
  err : JSValue
  resultset : JSValue

/-- A promise settlement: one call to `resolve` or to `reject`. -/
inductive Settle : Type where
  | resolve (v : JSValue)
  | reject (e : FastbillError)

/-- The credentials tuple passed to the constructor; opaque pass-through. -/
structure Credentials : Type where
  email : String
  apiKey : String

/-- The Customer resource client: stores the credentials and the fixed
scope string set by the constructor. -/
structure Customer : Type where
  credentials : Credentials
  scope : String

/-- `customerFactory(credentials)`: builds a Customer whose scope is the
literal `"customer."`. -/
def customerFactory (creds : Credentials) : Customer :=
  { credentials := creds, scope := "customer." }

/-- The rejection value built by every `onResult` on a truthy transport
error. -/
def invalidRequest (err : JSValue) : FastbillError :=
  .invalidRequestError "Invalid Request to Fastbill." err

/-- Synchronous phase of `Customer#get`: default a falsy `options` to `{}`,
validate it is an object (a thrown TypeError becomes the `Except` error and
no request descriptor is produced), then build the descriptor with `service
= scope + "get"` and the verbatim `filter`, `limit`, `offset` fields. -/
def Customer.get_sync (c : Customer) (options : JSValue) :
    Except FastbillError RequestDescriptor :=
  let options := if isFalsy options then JSValue.vObj [] else options
  match mustBe options "object" with
  | .error e => .error e
  | .ok _ =>
      .ok { service := c.scope ++ "get"
            filter := some (getField options "filter")
            limit := some (getField options "limit")
            offset := some (getField options "offset") }

/-- The `onResult` callback of `Customer#get`: a truthy `err` rejects with
the wrapped InvalidRequestError, otherwise the promise resolves with
`resultset.CUSTOMERS`. -/
def Customer.get_onResult (args : CallbackArgs) : Settle :=
  if truthy args.err then .reject (invalidRequest args.err)
  else .resolve (getField args.resultset "CUSTOMERS")

/-- Synchronous phase of `Customer#create`: default a falsy `customer` to
`{}`, validate it is an object, then send `service = scope + "create"` with
`data` the entity itself. -/
def Customer.create_sync (c : Customer) (customer : JSValue) :
    Except FastbillError RequestDescriptor :=
  let customer := if isFalsy customer then JSValue.vObj [] else customer
  match mustBe customer "object" with
  | .error e => .error e
  | .ok _ => .ok { service := c.scope ++ "create", data := some customer }

/-- The `onResult` callback of `Customer#create`: rejects on truthy `err`,
otherwise resolves with `resultset.CUSTOMER_ID`. -/
def Customer.create_onResult (args : CallbackArgs) : Settle :=
  if truthy args.err then .reject (invalidRequest args.err)
  else .resolve (getField args.resultset "CUSTOMER_ID")

/-- Synchronous phase of `Customer#update`: validate `id` is a number and
`modification` an object, then assign `modification.CUSTOMER_ID = id` in
place and send `service = scope + "update"` with `data` the (mutated)
modification object. The second component of the result is the post-call
state of the caller-supplied `modification` object, which aliases `data`. -/
def Customer.update_sync (c : Customer) (id modification : JSValue) :
    Except FastbillError (RequestDescriptor × JSValue) :=
  match mustBe id "number" with
  | .error e => .error e
  | .ok _ =>
    match mustBe modification "object" with
    | .error e => .error e
    | .ok _ =>
      let modification := setField modification "CUSTOMER_ID" id
      .ok ({ service := c.scope ++ "update", data := some modification },
           modification)

/-- The `onResult` callback of `Customer#update`: rejects on truthy `err`,
otherwise resolves with boolean `true`. -/
def Customer.update_onResult (args : CallbackArgs) : Settle :=
  if truthy args.err then .reject (invalidRequest args.err)
  else .resolve (.vBool true)

/-- Synchronous phase of `Customer#remove`: validate `id` is a number, then
send `service = scope + "delete"` with `data = {CUSTOMER_ID: id}`. -/
def Customer.remove_sync (c : Customer) (id : JSValue) :
    Except FastbillError RequestDescriptor :=
  match mustBe id "number" with
  | .error e => .error e
  | .ok _ =>
      .ok { service := c.scope ++ "delete"
            data := some (JSValue.vObj [("CUSTOMER_ID", id)]) }

/-- The `onResult` callback of `Customer#remove`: rejects on truthy `err`,
otherwise resolves with boolean `true`. -/
def Customer.remove_onResult (args : CallbackArgs) : Settle :=
  if truthy args.err then .reject (invalidRequest args.err)
  else .resolve (.vBool true)

/-- The settlements a method invocation performs, given its synchronous
phase and the list of Transport callback invocations: a synchronous
validation throw settles the promise once by rejecting it, and each
callback invocation performs exactly the one settlement `onResult` chooses. -/
def methodSettles {α : Type} (sync : Except FastbillError α)
    (onRes : CallbackArgs → Settle) (invocations : List CallbackArgs) :
    List Settle :=
  match sync with
  | .error e => [.reject e]
  | .ok _ => invocations.map onRes

/-- The terminal outcome of the returned promise: the first settlement wins
(later settlements of an already-settled promise are ignored). -/
def promiseOutcome (settles : List Settle) : Option Settle := settles.head?

/-- True when the synchronous phase raised a TypeError-kind error (and hence
no request descriptor was produced). -/
def syncTypeError {α : Type} : Except FastbillError α → Bool
  | .error (.typeError _) => true
  | .error (.invalidRequestError _ _) => false
  | .ok _ => false

/-- Reading back the key just assigned returns the assigned value. -/
theorem lookupField_setAssoc_same (fs : List (String × JSValue)) (k : String)
    (x : JSValue) : lookupField (setAssoc fs k x) k = x := by
  induction fs with
  | nil => simp [setAssoc, lookupField]
  | cons p rest ih =>
    obtain ⟨a, b⟩ := p
    by_cases h : a = k
    · simp [setAssoc, lookupField, h]
    · simp [setAssoc, lookupField, h, ih]

/-- Assigning one key leaves every other key's value unchanged. -/
theorem lookupField_setAssoc_other (fs : List (String × JSValue)) (k q : String)
    (x : JSValue) (h : q ≠ k) :
    lookupField (setAssoc fs k x) q = lookupField fs q := by
  induction fs with
  | nil => simp [setAssoc, lookupField, Ne.symm h]
  | cons p rest ih =>
    obtain ⟨a, b⟩ := p
    by_cases hak : a = k
    · subst hak
      simp [setAssoc, lookupField, Ne.symm h]
    · by_cases haq : a = q
      · subst haq
        simp [setAssoc, lookupField, hak, h]
      · simp [setAssoc, lookupField, hak, haq, ih]

/-- A value of kind `object` is a plain mapping. -/
theorem jsKind_object_exists (v : JSValue) (h : jsKind v = "object") :
    ∃ fs, v = JSValue.vObj fs := by
  cases v
  case vObj fs => exact ⟨fs, rfl⟩
  all_goals simp [jsKind] at h

/-- Plain mappings are truthy, so `options || {}` keeps them. -/
theorem isFalsy_of_object (v : JSValue) (h : jsKind v = "object") :
    isFalsy v = false := by
  obtain ⟨fs, rfl⟩ := jsKind_object_exists v h
  rfl

/-- C1 counterexample: the falsy non-mapping `0` passed as `options` to
`get` does not fail with a TypeError-kind error; the request descriptor is
built and handed to Transport, because the defaulting `options = options ||
...` runs before the type check. -/
theorem get_zero_options_counterexample :
    jsKind (JSValue.vNum 0) ≠ "object"
    ∧ Customer.get_sync (customerFactory ⟨"c1@example.com", "k1"⟩) (JSValue.vNum 0)
        = Except.ok { service := "customer.get"
                      filter := some JSValue.vUndefined
                      limit := some JSValue.vUndefined
                      offset := some JSValue.vUndefined } :=
  ⟨by decide, rfl⟩

/-- C1 (amended): for every truthy non-mapping `options` to `get` and every
truthy non-mapping entity to `create`, and for every `update` call whose
`id` is not a number or whose `modification` is not a plain mapping, and
every `remove` call whose `id` is not a number, the call fails synchronously
with a TypeError-kind error and no request descriptor is handed to
Transport. (Falsy `options` and entity values are instead defaulted to the
empty mapping.) -/
theorem validation_rejects_bad_arguments (creds : Credentials)
    (o id m idr ent : JSValue)
    (hoT : truthy o = true) (hoK : jsKind o ≠ "object")
    (hu : jsKind id ≠ "number" ∨ jsKind m ≠ "object")
    (hr : jsKind idr ≠ "number")
    (heT : truthy ent = true) (heK : jsKind ent ≠ "object") :
    syncTypeError (Customer.get_sync (customerFactory creds) o) = true
    ∧ syncTypeError (Customer.update_sync (customerFactory creds) id m) = true
    ∧ syncTypeError (Customer.remove_sync (customerFactory creds) idr) = true
    ∧ syncTypeError (Customer.create_sync (customerFactory creds) ent) = true := by
  have hof : isFalsy o = false := by
    have := hoT
    simp [truthy] at this
    exact this
  have hef : isFalsy ent = false := by
    have := heT
    simp [truthy] at this
    exact this
  refine ⟨?_, ?_, ?_, ?_⟩
  · simp [Customer.get_sync, mustBe, hof, hoK, syncTypeError]
  · rcases hu with hid | hm
    · simp [Customer.update_sync, mustBe, hid, syncTypeError]
    · by_cases hid : jsKind id = "number"
      · simp [Customer.update_sync, mustBe, hid, hm, syncTypeError]
      · simp [Customer.update_sync, mustBe, hid, syncTypeError]
  · simp [Customer.remove_sync, mustBe, hr, syncTypeError]
  · simp [Customer.create_sync, mustBe, hef, heK, syncTypeError]

/-- Witness for the amended C1, at concrete invalid arguments; the update
call has a numeric `id` and a non-mapping `modification`, so the type
check that fires is the one on `modification`. -/
theorem validation_rejects_bad_arguments_witness :
    truthy (JSValue.vStr "x") = true ∧ jsKind (JSValue.vStr "x") ≠ "object"
    ∧ jsKind (JSValue.vNum 5) = "number" ∧ jsKind (JSValue.vStr "bad") ≠ "object"
    ∧ jsKind (JSValue.vStr "y") ≠ "number"
    ∧ truthy (JSValue.vNum 1) = true ∧ jsKind (JSValue.vNum 1) ≠ "object"
    ∧ (syncTypeError (Customer.get_sync (customerFactory ⟨"c1w@example.com", "k2"⟩)
          (JSValue.vStr "x")) = true
       ∧ syncTypeError (Customer.update_sync (customerFactory ⟨"c1w@example.com", "k2"⟩)
          (JSValue.vNum 5) (JSValue.vStr "bad")) = true
       ∧ syncTypeError (Customer.remove_sync (customerFactory ⟨"c1w@example.com", "k2"⟩)
          (JSValue.vStr "y")) = true
       ∧ syncTypeError (Customer.create_sync (customerFactory ⟨"c1w@example.com", "k2"⟩)
          (JSValue.vNum 1)) = true) :=
  ⟨by decide, by decide, by decide, by decide, by decide, by decide, by decide,
   validation_rejects_bad_arguments ⟨"c1w@example.com", "k2"⟩
     (JSValue.vStr "x") (JSValue.vNum 5) (JSValue.vStr "bad") (JSValue.vStr "y")
     (JSValue.vNum 1)
     (by decide) (by decide) (Or.inr (by decide)) (by decide)
     (by decide) (by decide)⟩

/-- C10: every falsy argument (such as 0, false, the empty string, null,
NaN, or undefined) supplied as `options` to `get` or as the entity to
`create` raises no TypeError: it is replaced by the empty mapping and the
call proceeds exactly as if the argument had been omitted. -/
theorem falsy_argument_defaults (creds : Credentials) (v : JSValue)
    (h : isFalsy v = true) :
    Customer.get_sync (customerFactory creds) v
      = Customer.get_sync (customerFactory creds) JSValue.vUndefined
    ∧ syncTypeError (Customer.get_sync (customerFactory creds) v) = false
    ∧ Customer.create_sync (customerFactory creds) v
      = Customer.create_sync (customerFactory creds) JSValue.vUndefined
    ∧ syncTypeError (Customer.create_sync (customerFactory creds) v) = false := by
  have hv : (if isFalsy v = true then JSValue.vObj [] else v) = JSValue.vObj [] := by
    rw [h]
    simp
  refine ⟨?_, ?_, ?_, ?_⟩ <;>
    simp only [Customer.get_sync, Customer.create_sync, hv] <;> rfl

/-- Witness for C10, at the falsy argument `0`. -/
theorem falsy_argument_defaults_witness :
    isFalsy (JSValue.vNum 0) = true
    ∧ (Customer.get_sync (customerFactory ⟨"c10@example.com", "k3"⟩) (JSValue.vNum 0)
         = Customer.get_sync (customerFactory ⟨"c10@example.com", "k3"⟩) JSValue.vUndefined
       ∧ syncTypeError (Customer.get_sync (customerFactory ⟨"c10@example.com", "k3"⟩)
           (JSValue.vNum 0)) = false
       ∧ Customer.create_sync (customerFactory ⟨"c10@example.com", "k3"⟩) (JSValue.vNum 0)
         = Customer.create_sync (customerFactory ⟨"c10@example.com", "k3"⟩) JSValue.vUndefined
       ∧ syncTypeError (Customer.create_sync (customerFactory ⟨"c10@example.com", "k3"⟩)
           (JSValue.vNum 0)) = false) :=
  ⟨by decide, falsy_argument_defaults ⟨"c10@example.com", "k3"⟩ (JSValue.vNum 0) (by decide)⟩

/-- C2: whenever Transport invokes the callback with a truthy error and an
undefined result set, every one of the four operations rejects with an
InvalidRequestError whose `detail` is that very error and whose `message`
is the fixed string. -/
theorem transport_error_rejects_invalid_request (e : JSValue)
    (he : truthy e = true) :
    Customer.get_onResult ⟨e, JSValue.vUndefined⟩
      = Settle.reject (FastbillError.invalidRequestError "Invalid Request to Fastbill." e)
    ∧ Customer.create_onResult ⟨e, JSValue.vUndefined⟩
      = Settle.reject (FastbillError.invalidRequestError "Invalid Request to Fastbill." e)
    ∧ Customer.update_onResult ⟨e, JSValue.vUndefined⟩
      = Settle.reject (FastbillError.invalidRequestError "Invalid Request to Fastbill." e)
    ∧ Customer.remove_onResult ⟨e, JSValue.vUndefined⟩
      = Settle.reject (FastbillError.invalidRequestError "Invalid Request to Fastbill." e) := by
  refine ⟨?_, ?_, ?_, ?_⟩ <;>
    simp [Customer.get_onResult, Customer.create_onResult,
      Customer.update_onResult, Customer.remove_onResult, he, invalidRequest]

/-- Witness for C2, at a concrete error object. -/
theorem transport_error_rejects_invalid_request_witness :
    truthy (JSValue.vObj [("message", JSValue.vStr "boom")]) = true
    ∧ (Customer.get_onResult ⟨JSValue.vObj [("message", JSValue.vStr "boom")], JSValue.vUndefined⟩
        = Settle.reject (FastbillError.invalidRequestError "Invalid Request to Fastbill."
            (JSValue.vObj [("message", JSValue.vStr "boom")]))
       ∧ Customer.create_onResult ⟨JSValue.vObj [("message", JSValue.vStr "boom")], JSValue.vUndefined⟩
        = Settle.reject (FastbillError.invalidRequestError "Invalid Request to Fastbill."
            (JSValue.vObj [("message", JSValue.vStr "boom")]))
       ∧ Customer.update_onResult ⟨JSValue.vObj [("message", JSValue.vStr "boom")], JSValue.vUndefined⟩
        = Settle.reject (FastbillError.invalidRequestError "Invalid Request to Fastbill."
            (JSValue.vObj [("message", JSValue.vStr "boom")]))
       ∧ Customer.remove_onResult ⟨JSValue.vObj [("message", JSValue.vStr "boom")], JSValue.vUndefined⟩
        = Settle.reject (FastbillError.invalidRequestError "Invalid Request to Fastbill."
            (JSValue.vObj [("message", JSValue.vStr "boom")]))) :=
  ⟨by decide, transport_error_rejects_invalid_request
    (JSValue.vObj [("message", JSValue.vStr "boom")]) (by decide)⟩

/-- C3: when Transport answers `get` with a null error and a result set,
the promise resolves with exactly the `CUSTOMERS` field of that result set;
in particular a result set carrying the sequence of entities a, b resolves
to that very sequence, unreordered and unfiltered. -/
theorem get_resolves_customers_passthrough (creds : Credentials)
    (o rs : JSValue) (h : jsKind o = "object") :
    promiseOutcome (methodSettles (Customer.get_sync (customerFactory creds) o)
        Customer.get_onResult [⟨JSValue.vNull, rs⟩])
      = some (Settle.resolve (getField rs "CUSTOMERS"))
    ∧ (∀ a b : JSValue,
        getField (JSValue.vObj [("CUSTOMERS", JSValue.vArr [a, b])]) "CUSTOMERS"
          = JSValue.vArr [a, b]) := by
  constructor
  · obtain ⟨fs, rfl⟩ := jsKind_object_exists o h
    simp [Customer.get_sync, mustBe, jsKind, isFalsy, methodSettles,
      promiseOutcome, Customer.get_onResult, truthy]
  · intro a b
    simp [getField, lookupField]

/-- Witness for C3, at empty options and a two-element result set. -/
theorem get_resolves_customers_passthrough_witness :
    jsKind (JSValue.vObj []) = "object"
    ∧ (promiseOutcome (methodSettles
          (Customer.get_sync (customerFactory ⟨"c3@example.com", "k4"⟩) (JSValue.vObj []))
          Customer.get_onResult
          [⟨JSValue.vNull, JSValue.vObj [("CUSTOMERS", JSValue.vArr [JSValue.vNum 1, JSValue.vNum 2])]⟩])
        = some (Settle.resolve (getField
            (JSValue.vObj [("CUSTOMERS", JSValue.vArr [JSValue.vNum 1, JSValue.vNum 2])]) "CUSTOMERS"))
       ∧ ∀ a b : JSValue,
          getField (JSValue.vObj [("CUSTOMERS", JSValue.vArr [a, b])]) "CUSTOMERS"
            = JSValue.vArr [a, b])
    ∧ getField (JSValue.vObj [("CUSTOMERS", JSValue.vArr [JSValue.vNum 1, JSValue.vNum 2])]) "CUSTOMERS"
        = JSValue.vArr [JSValue.vNum 1, JSValue.vNum 2] :=
  ⟨by decide, get_resolves_customers_passthrough ⟨"c3@example.com", "k4"⟩
    (JSValue.vObj []) (JSValue.vObj [("CUSTOMERS", JSValue.vArr [JSValue.vNum 1, JSValue.vNum 2])])
    (by decide), rfl⟩

/-- C4: for every number `id` and plain mapping `modification`,
`update(id, modification)` leaves the caller-supplied object, after the
call, in the state obtained by assigning `CUSTOMER_ID := id` into it
(the in-place mutation happens before the request is sent, and is modelled
as the post-state of the caller's object returned by `update_sync`), and
reading `CUSTOMER_ID` back on that post-state yields `id`. -/
theorem update_mutates_modification (creds : Credentials) (id m : JSValue)
    (hid : jsKind id = "number") (hm : jsKind m = "object") :
    (Customer.update_sync (customerFactory creds) id m).toOption.map Prod.snd
      = some (setField m "CUSTOMER_ID" id)
    ∧ getField (setField m "CUSTOMER_ID" id) "CUSTOMER_ID" = id := by
  constructor
  · obtain ⟨fs, rfl⟩ := jsKind_object_exists m hm
    simp [Customer.update_sync, mustBe, hid, hm]
    exact ⟨_, rfl⟩
  · obtain ⟨fs, rfl⟩ := jsKind_object_exists m hm
    simp [setField, getField, lookupField_setAssoc_same]

/-- Witness for C4, at `id = 5` and a one-field modification. -/
theorem update_mutates_modification_witness :
    jsKind (JSValue.vNum 5) = "number"
    ∧ jsKind (JSValue.vObj [("FIRST_NAME", JSValue.vStr "A")]) = "object"
    ∧ ((Customer.update_sync (customerFactory ⟨"c4@example.com", "k5"⟩) (JSValue.vNum 5)
          (JSValue.vObj [("FIRST_NAME", JSValue.vStr "A")])).toOption.map Prod.snd
        = some (setField (JSValue.vObj [("FIRST_NAME", JSValue.vStr "A")])
            "CUSTOMER_ID" (JSValue.vNum 5))
       ∧ getField (setField (JSValue.vObj [("FIRST_NAME", JSValue.vStr "A")])
            "CUSTOMER_ID" (JSValue.vNum 5)) "CUSTOMER_ID" = JSValue.vNum 5)
    ∧ setField (JSValue.vObj [("FIRST_NAME", JSValue.vStr "A")]) "CUSTOMER_ID" (JSValue.vNum 5)
        = JSValue.vObj [("FIRST_NAME", JSValue.vStr "A"), ("CUSTOMER_ID", JSValue.vNum 5)] :=
  ⟨rfl, rfl,
   update_mutates_modification ⟨"c4@example.com", "k5"⟩ (JSValue.vNum 5)
     (JSValue.vObj [("FIRST_NAME", JSValue.vStr "A")]) rfl rfl, rfl⟩

/-- C5: for every number `id` and plain mapping `modification`, `update`
produces exactly one request descriptor, with service `customer.update` and
data the modification merged with `CUSTOMER_ID := id` (agreeing with the
original modification on all other keys); on a falsy transport error the
promise resolves with boolean true, on a truthy one it rejects with the
wrapped InvalidRequestError. -/
theorem update_sends_service_and_merged_data (creds : Credentials) (id m : JSValue)
    (hid : jsKind id = "number") (hm : jsKind m = "object") :
    Customer.update_sync (customerFactory creds) id m
      = Except.ok ({ service := "customer.update"
                     data := some (setField m "CUSTOMER_ID" id) },
                   setField m "CUSTOMER_ID" id)
    ∧ getField (setField m "CUSTOMER_ID" id) "CUSTOMER_ID" = id
    ∧ (∀ k, k ≠ "CUSTOMER_ID" → getField (setField m "CUSTOMER_ID" id) k = getField m k)
    ∧ (∀ args : CallbackArgs, truthy args.err = false →
        Customer.update_onResult args = Settle.resolve (JSValue.vBool true))
    ∧ (∀ args : CallbackArgs, truthy args.err = true →
        Customer.update_onResult args = Settle.reject (invalidRequest args.err)) := by
  obtain ⟨fs, rfl⟩ := jsKind_object_exists m hm
  refine ⟨?_, ?_, ?_, ?_, ?_⟩
  · simp [Customer.update_sync, mustBe, hid, hm, customerFactory]
  · simp [setField, getField, lookupField_setAssoc_same]
  · intro k hk
    simp [setField, getField, lookupField_setAssoc_other _ _ _ _ hk]
  · intro args ha
    simp [Customer.update_onResult, ha]
  · intro args ha
    simp [Customer.update_onResult, ha]

/-- Witness for C5, at `update(5, (FIRST_NAME, A))`. -/
theorem update_sends_service_and_merged_data_witness :
    jsKind (JSValue.vNum 5) = "number"
    ∧ jsKind (JSValue.vObj [("FIRST_NAME", JSValue.vStr "A")]) = "object"
    ∧ (Customer.update_sync (customerFactory ⟨"c5@example.com", "k6"⟩) (JSValue.vNum 5)
         (JSValue.vObj [("FIRST_NAME", JSValue.vStr "A")])
       = Except.ok ({ service := "customer.update"
                      data := some (setField (JSValue.vObj [("FIRST_NAME", JSValue.vStr "A")])
                        "CUSTOMER_ID" (JSValue.vNum 5)) },
                    setField (JSValue.vObj [("FIRST_NAME", JSValue.vStr "A")])
                      "CUSTOMER_ID" (JSValue.vNum 5)))
    ∧ getField (setField (JSValue.vObj [("FIRST_NAME", JSValue.vStr "A")])
        "CUSTOMER_ID" (JSValue.vNum 5)) "FIRST_NAME" = JSValue.vStr "A" :=
  ⟨rfl, rfl,
   (update_sends_service_and_merged_data ⟨"c5@example.com", "k6"⟩ (JSValue.vNum 5)
     (JSValue.vObj [("FIRST_NAME", JSValue.vStr "A")]) rfl rfl).1, rfl⟩

/-- C6: for every number `id`, `remove(id)` produces exactly one request
descriptor, with service `customer.delete` and data the single-field
mapping binding `CUSTOMER_ID` to `id`; on a falsy transport error the
promise resolves with boolean true, on a truthy one it rejects with the
wrapped InvalidRequestError. -/
theorem remove_sends_delete_request (creds : Credentials) (id : JSValue)
    (hid : jsKind id = "number") :
    Customer.remove_sync (customerFactory creds) id
      = Except.ok { service := "customer.delete"
                    data := some (JSValue.vObj [("CUSTOMER_ID", id)]) }
    ∧ (∀ args : CallbackArgs, truthy args.err = false →
        Customer.remove_onResult args = Settle.resolve (JSValue.vBool true))
    ∧ (∀ args : CallbackArgs, truthy args.err = true →
        Customer.remove_onResult args = Settle.reject (invalidRequest args.err)) := by
  refine ⟨?_, ?_, ?_⟩
  · simp [Customer.remove_sync, mustBe, hid, customerFactory]
  · intro args ha
    simp [Customer.remove_onResult, ha]
  · intro args ha
    simp [Customer.remove_onResult, ha]

/-- Witness for C6, at `remove(7)`. -/
theorem remove_sends_delete_request_witness :
    jsKind (JSValue.vNum 7) = "number"
    ∧ Customer.remove_sync (customerFactory ⟨"c6@example.com", "k7"⟩) (JSValue.vNum 7)
        = Except.ok { service := "customer.delete"
                      data := some (JSValue.vObj [("CUSTOMER_ID", JSValue.vNum 7)]) } :=
  ⟨rfl,
   (remove_sends_delete_request ⟨"c6@example.com", "k7"⟩ (JSValue.vNum 7) rfl).1⟩

/-- C7: `create` defaults an absent (undefined) entity to the empty
mapping, sends exactly one request descriptor with service
`customer.create` and data the entity itself, resolves with the result
set's `CUSTOMER_ID` field on a null transport error (42 when Transport
answers with a result set binding `CUSTOMER_ID` to 42), and rejects with
the wrapped InvalidRequestError on a truthy transport error. -/
theorem create_defaults_and_resolves_id (creds : Credentials) (ent : JSValue)
    (hent : jsKind ent = "object") :
    Customer.create_sync (customerFactory creds) JSValue.vUndefined
      = Except.ok { service := "customer.create", data := some (JSValue.vObj []) }
    ∧ Customer.create_sync (customerFactory creds) ent
      = Except.ok { service := "customer.create", data := some ent }
    ∧ (∀ rs, Customer.create_onResult ⟨JSValue.vNull, rs⟩
        = Settle.resolve (getField rs "CUSTOMER_ID"))
    ∧ Customer.create_onResult
        ⟨JSValue.vNull, JSValue.vObj [("CUSTOMER_ID", JSValue.vNum 42)]⟩
        = Settle.resolve (JSValue.vNum 42)
    ∧ (∀ args : CallbackArgs, truthy args.err = true →
        Customer.create_onResult args = Settle.reject (invalidRequest args.err)) := by
  refine ⟨rfl, ?_, ?_, rfl, ?_⟩
  · obtain ⟨fs, rfl⟩ := jsKind_object_exists ent hent
    simp [Customer.create_sync, mustBe, jsKind, isFalsy, customerFactory]
  · intro rs
    simp [Customer.create_onResult, truthy, isFalsy]
  · intro args ha
    simp [Customer.create_onResult, ha]

/-- Witness for C7, at the entity binding `CUSTOMER_NUMBER` to `x`. -/
theorem create_defaults_and_resolves_id_witness :
    jsKind (JSValue.vObj [("CUSTOMER_NUMBER", JSValue.vStr "x")]) = "object"
    ∧ Customer.create_sync (customerFactory ⟨"c7@example.com", "k8"⟩)
        (JSValue.vObj [("CUSTOMER_NUMBER", JSValue.vStr "x")])
        = Except.ok { service := "customer.create"
                      data := some (JSValue.vObj [("CUSTOMER_NUMBER", JSValue.vStr "x")]) }
    ∧ Customer.create_onResult
        ⟨JSValue.vNull, JSValue.vObj [("CUSTOMER_ID", JSValue.vNum 42)]⟩
        = Settle.resolve (JSValue.vNum 42) :=
  ⟨rfl,
   (create_defaults_and_resolves_id ⟨"c7@example.com", "k8"⟩
     (JSValue.vObj [("CUSTOMER_NUMBER", JSValue.vStr "x")]) rfl).2.1,
   (create_defaults_and_resolves_id ⟨"c7@example.com", "k8"⟩
     (JSValue.vObj [("CUSTOMER_NUMBER", JSValue.vStr "x")]) rfl).2.2.2.1⟩

/-- C8: for every plain-mapping `options` (and for the omitted case, which
defaults to the empty mapping), `get` produces exactly one request
descriptor with service `customer.get` whose `filter`, `limit` and `offset`
fields are the verbatim property reads of `options`. -/
theorem get_forwards_options_verbatim (creds : Credentials) (o : JSValue)
    (ho : jsKind o = "object") :
    Customer.get_sync (customerFactory creds) o
      = Except.ok { service := "customer.get"
                    filter := some (getField o "filter")
                    limit := some (getField o "limit")
                    offset := some (getField o "offset") }
    ∧ Customer.get_sync (customerFactory creds) JSValue.vUndefined
      = Except.ok { service := "customer.get"
                    filter := some JSValue.vUndefined
                    limit := some JSValue.vUndefined
                    offset := some JSValue.vUndefined } := by
  constructor
  · obtain ⟨fs, rfl⟩ := jsKind_object_exists o ho
    simp [Customer.get_sync, mustBe, jsKind, isFalsy, customerFactory]
  · rfl

/-- Witness for C8, at options carrying all three query fields. -/
theorem get_forwards_options_verbatim_witness :
    jsKind (JSValue.vObj [("filter", JSValue.vStr "f"), ("limit", JSValue.vNum 10),
      ("offset", JSValue.vNum 2)]) = "object"
    ∧ Customer.get_sync (customerFactory ⟨"c8@example.com", "k9"⟩)
        (JSValue.vObj [("filter", JSValue.vStr "f"), ("limit", JSValue.vNum 10),
          ("offset", JSValue.vNum 2)])
        = Except.ok { service := "customer.get"
                      filter := some (getField (JSValue.vObj [("filter", JSValue.vStr "f"),
                        ("limit", JSValue.vNum 10), ("offset", JSValue.vNum 2)]) "filter")
                      limit := some (getField (JSValue.vObj [("filter", JSValue.vStr "f"),
                        ("limit", JSValue.vNum 10), ("offset", JSValue.vNum 2)]) "limit")
                      offset := some (getField (JSValue.vObj [("filter", JSValue.vStr "f"),
                        ("limit", JSValue.vNum 10), ("offset", JSValue.vNum 2)]) "offset") }
    ∧ getField (JSValue.vObj [("filter", JSValue.vStr "f"), ("limit", JSValue.vNum 10),
        ("offset", JSValue.vNum 2)]) "filter" = JSValue.vStr "f" :=
  ⟨rfl,
   (get_forwards_options_verbatim ⟨"c8@example.com", "k9"⟩
     (JSValue.vObj [("filter", JSValue.vStr "f"), ("limit", JSValue.vNum 10),
       ("offset", JSValue.vNum 2)]) rfl).1, rfl⟩

/-- Helper: a method settles exactly once whenever Transport invokes the
callback exactly once, whatever the synchronous phase did. -/
theorem methodSettles_length_one {α : Type} (sync : Except FastbillError α)
    (f : CallbackArgs → Settle) (invs : List CallbackArgs)
    (h : invs.length = 1) : (methodSettles sync f invs).length = 1 := by
  cases sync <;> simp [methodSettles, h]

/-- C9: for every invocation of any of the four resource methods — with
arbitrary, possibly invalid, arguments — if Transport invokes the supplied
callback exactly once then the returned promise performs exactly one
settlement: one resolution or one rejection, never zero and never more. -/
theorem single_settlement_invariant (creds : Credentials)
    (o ent id m : JSValue) (invs : List CallbackArgs)
    (h : invs.length = 1) :
    (methodSettles (Customer.get_sync (customerFactory creds) o)
        Customer.get_onResult invs).length = 1
    ∧ (methodSettles (Customer.create_sync (customerFactory creds) ent)
        Customer.create_onResult invs).length = 1
    ∧ (methodSettles (Customer.update_sync (customerFactory creds) id m)
        Customer.update_onResult invs).length = 1
    ∧ (methodSettles (Customer.remove_sync (customerFactory creds) id)
        Customer.remove_onResult invs).length = 1 :=
  ⟨methodSettles_length_one _ _ _ h, methodSettles_length_one _ _ _ h,
   methodSettles_length_one _ _ _ h, methodSettles_length_one _ _ _ h⟩

/-- Witness for C9, at a single callback invocation and one valid call
(the remove) together with one locally failing call (a string id for
update). -/
theorem single_settlement_invariant_witness :
    ([(⟨JSValue.vNull, JSValue.vObj []⟩ : CallbackArgs)].length = 1)
    ∧ ((methodSettles (Customer.get_sync (customerFactory ⟨"c9@example.com", "k10"⟩)
          (JSValue.vObj [])) Customer.get_onResult
          [⟨JSValue.vNull, JSValue.vObj []⟩]).length = 1
       ∧ (methodSettles (Customer.create_sync (customerFactory ⟨"c9@example.com", "k10"⟩)
          (JSValue.vObj [])) Customer.create_onResult
          [⟨JSValue.vNull, JSValue.vObj []⟩]).length = 1
       ∧ (methodSettles (Customer.update_sync (customerFactory ⟨"c9@example.com", "k10"⟩)
          (JSValue.vStr "bad") (JSValue.vObj [])) Customer.update_onResult
          [⟨JSValue.vNull, JSValue.vObj []⟩]).length = 1
       ∧ (methodSettles (Customer.remove_sync (customerFactory ⟨"c9@example.com", "k10"⟩)
          (JSValue.vStr "bad")) Customer.remove_onResult
          [⟨JSValue.vNull, JSValue.vObj []⟩]).length = 1) :=
  ⟨rfl, single_settlement_invariant ⟨"c9@example.com", "k10"⟩
    (JSValue.vObj []) (JSValue.vObj []) (JSValue.vStr "bad") (JSValue.vObj [])
    [⟨JSValue.vNull, JSValue.vObj []⟩] rfl⟩

end Fastbill
